import Mathlib

/-!
Shallow embedding of `src/custom_components/yandex_weather/weather.py`
(the `YandexWeather` weather-entity adapter).

Python attribute values that are "a number or None" are modelled as
`Option ℤ`; strings as `Option String`.  A Python attribute that may be
unset (declared by annotation only, never assigned) or `None` or a list is
modelled by `PyList`.  Raising `TypeError` / `AttributeError` is modelled
by `Except PyErr`.  Opaque host-framework collaborators (the unit
converters `UNIT_CONVERSIONS[...]`, `get_image`, the `TRIGGERS` set from
`device_trigger`) are passed as explicit parameters, since the repository
treats them as external.
-/

namespace YandexWeather

/-- Python exceptions that the adapter's code paths can raise. -/
inductive PyErr where
  | typeError
  | attributeError
deriving DecidableEq

/-- A Python attribute that is either never assigned (annotation only),
assigned `None`, or assigned a list. -/
inductive PyList (α : Type) where
  | unset
  | pynone
  | plist (l : List α)
deriving DecidableEq

/-- The `Forecast` typed dictionary: every key the adapter reads or
writes, each optional (absent keys are `none`). -/
structure Forecast where
  datetime : Option String := none
  condition : Option String := none
  wind_bearing : Option ℤ := none
  native_temperature : Option ℤ := none
  temperatrue : Option ℤ := none
  native_templow : Option ℤ := none
  templow : Option ℤ := none
  native_pressure : Option ℤ := none
  native_wind_speed : Option ℤ := none
  temperature : Option ℤ := none
  pressure : Option ℤ := none
  wind_speed : Option ℤ := none
  precipitation : Option ℤ := none
deriving DecidableEq

/-- The coordinator's last-fetched data dictionary: each field is the
result the dictionary would hold, `none` when the key is absent
(`dict.get` is total and returns `None` for absent keys). -/
structure CoordData where
  condition : Option String := none
  original_condition : Option String := none
  image : Option String := none
  daytime : Option String := none
  forecast_data : Option (List Forecast) := none
  humidity : Option ℤ := none
  pressure : Option ℤ := none
  temperature : Option ℤ := none
  wind_speed : Option ℤ := none
  wind_bearing : Option ℤ := none
  feels_like : Option ℤ := none
  wind_gust : Option ℤ := none
  ya_condition : Option String := none
  forecast_icons : Option (List String) := none
  temp_water : Option ℤ := none
  weather_time : Option String := none
deriving DecidableEq

/-- `self._attr_extra_state_attributes`: an outer `Option` models key
presence in the dictionary (a present key may still map to `None`). -/
structure ExtraAttrs where
  feels_like : Option (Option ℤ) := none
  wind_gust : Option (Option ℤ) := none
  yandex_condition : Option (Option String) := none
  forecast_icons : Option (Option (List String)) := none
  temp_water : Option (Option ℤ) := none
  forecast_data : Option (List Forecast) := none
deriving DecidableEq

/-- The mutable state of a `YandexWeather` entity: every `_attr_*` slot
the adapter reads or writes, plus `_twice_daily_forecast`. -/
structure YW where
  attr_available : Bool := false
  attr_condition : Option String := none
  attr_native_temperature : Option ℤ := none
  attr_native_pressure : Option ℤ := none
  attr_native_wind_speed : Option ℤ := none
  attr_humidity : Option ℤ := none
  attr_wind_bearing : Option ℤ := none
  attr_entity_picture : Option String := none
  twice_daily_forecast : PyList Forecast := .unset
  attr_extra_state_attributes : ExtraAttrs := {}
deriving DecidableEq

/-- `_attr_native_temperature_unit = UnitOfTemperature.CELSIUS`. -/
def nativeTemperatureUnit : String := "°C"

/-- `_attr_native_pressure_unit = UnitOfPressure.HPA`. -/
def nativePressureUnit : String := "hPa"

/-- `_attr_native_wind_speed_unit = UnitOfSpeed.METERS_PER_SECOND`. -/
def nativeWindSpeedUnit : String := "m/s"

/-- `_attr_native_precipitation_unit = UnitOfPrecipitationDepth.MILLIMETERS`. -/
def nativePrecipitationUnit : String := "mm"

/-- The integration domain constant `DOMAIN` from `const.py`. -/
def DOMAIN : String := "yandex_weather"

/-- The "current conditions" `Forecast` entry synthesized by
`__forecast_twice_daily` (lines 260-271 of `weather.py`): built from the
coordinator's weather time and the entity's current wind bearing,
temperatures, pressure, wind speed and condition (including the source's
misspelled `temperatrue` key). -/
def synthForecast (d : CoordData) (s : YW) : Forecast :=
  { datetime := d.weather_time
    wind_bearing := s.attr_wind_bearing
    native_temperature := s.attr_native_temperature
    temperatrue := s.attr_native_temperature
    native_templow := s.attr_native_temperature
    templow := s.attr_native_temperature
    native_pressure := s.attr_native_pressure
    native_wind_speed := s.attr_native_wind_speed
    condition := s.attr_condition }

/-- `__forecast_twice_daily` (weather.py lines 249-273).  Reading
`self._twice_daily_forecast` raises `AttributeError` when the attribute
was never assigned; `len(None)` raises `TypeError`.  When the stored list
has fewer than 3 entries, the synthesized entry is inserted in place at
index 0 (list mutation is modelled by returning the updated entity
state). -/
def forecastTwiceDaily (d : CoordData) (s : YW) :
    Except PyErr (List Forecast × YW) :=
  match s.twice_daily_forecast with
  | .unset => .error .attributeError
  | .pynone => .error .typeError
  | .plist l =>
    if l.length < 3 then
      let l2 := synthForecast d s :: l
      .ok (l2, { s with twice_daily_forecast := .plist l2 })
    else
      .ok (l, s)

/-- An event fired on the host's event bus. -/
structure Event where
  event_type : String
  device_id : String
  payload_type : Option String
deriving DecidableEq

/-- Python `new_condition in TRIGGERS` where `new_condition` may be
`None` (and `None` is not a member of a list of strings). -/
def optMem (nc : Option String) (triggers : List String) : Bool :=
  match nc with
  | some c => triggers.contains c
  | none => false

/-- `update_condition_and_fire_event` (weather.py lines 232-247).
`triggers` is the `TRIGGERS` list from `device_trigger`, passed as a
parameter since that module is an external collaborator here;
`hassPresent` models `self.hass is not None`.  Returns the updated
entity state and the list of fired events. -/
def updateConditionAndFireEvent (triggers : List String) (hassPresent : Bool)
    (deviceId : String) (newCondition : Option String) (s : YW) :
    YW × List Event :=
  let evs :=
    if (newCondition != s.attr_condition) && hassPresent
        && optMem newCondition triggers then
      [{ event_type := DOMAIN ++ "_event", device_id := deviceId,
         payload_type := newCondition }]
    else []
  ({ s with attr_condition := newCondition }, evs)

/-- `_handle_coordinator_update` (weather.py lines 199-230).  `getImage`
stands for the external `get_image` helper (with the configured image
source already applied); its arguments are the original condition,
`daytime == "d"`, and the image field.  Note that the extra-state
dictionary literal calls `__forecast_twice_daily()` while being built,
and the `temp_water` lookup uses `dict.get`, which is total. -/
def handleCoordinatorUpdate (triggers : List String) (hassPresent : Bool)
    (deviceId : String)
    (getImage : Option String → Bool → Option String → Option String)
    (d : CoordData) (s : YW) : Except PyErr (YW × List Event) :=
  let s1 := { s with attr_available := true }
  let p := updateConditionAndFireEvent triggers hassPresent deviceId d.condition s1
  let s2 := p.1
  let pic := getImage d.original_condition (d.daytime == some "d") d.image
  let s3 := { s2 with attr_entity_picture := pic }
  let s4 := { s3 with twice_daily_forecast := .plist (d.forecast_data.getD []) }
  let s5 := { s4 with
    attr_humidity := d.humidity
    attr_native_pressure := d.pressure
    attr_native_temperature := d.temperature
    attr_native_wind_speed := d.wind_speed
    attr_wind_bearing := d.wind_bearing }
  match forecastTwiceDaily d s5 with
  | .error e => .error e
  | .ok (fc, s6) =>
    let s7 := { s6 with attr_extra_state_attributes :=
      { feels_like := some d.feels_like
        wind_gust := some d.wind_gust
        yandex_condition := some d.ya_condition
        forecast_icons := some d.forecast_icons
        forecast_data := some fc
        temp_water := some d.temp_water } }
    .ok (s7, p.2)

/-- The attributes of a restored previous state (`state.attributes`);
each field is what `state.attributes.get(key)` returns, `none` when the
key is absent or holds `None`.  The `*_unit` fields are the snapshot's
`_temperature_unit`, `_pressure_unit`, `_wind_speed_unit`,
`_precipitation_unit` keys. -/
structure SavedAttrs where
  temperature : Option ℤ := none
  pressure : Option ℤ := none
  wind_speed : Option ℤ := none
  temperature_unit : Option String := none
  pressure_unit : Option String := none
  wind_speed_unit : Option String := none
  precipitation_unit : Option String := none
  humidity : Option ℤ := none
  wind_bearing : Option ℤ := none
  entity_picture : Option String := none
  forecast_data : Option (List Forecast) := none
  feels_like : Option ℤ := none
  wind_gust : Option ℤ := none
  yandex_condition : Option String := none
  temp_water : Option ℤ := none
  forecast_icons : Option (List String) := none
deriving DecidableEq

/-- A restored previous state: state string, attributes and the
`last_updated` timestamp (in seconds). -/
structure SavedState where
  state : String
  attributes : SavedAttrs
  last_updated : ℤ
deriving DecidableEq

/-- `STATE_UNAVAILABLE` from `homeassistant.const`. -/
def STATE_UNAVAILABLE : String := "unavailable"

/-- The entity's display-unit attributes `self._temperature_unit`,
`self._pressure_unit`, `self._wind_speed_unit`,
`self._precipitation_unit`, looked up by `getattr` in the forecast
restore loop.  They belong to the opaque host `WeatherEntity` base
class, so they are inputs of the model; `none` means the attribute does
not exist and `getattr`'s default is used. -/
structure DisplayUnits where
  temperature_unit : Option String := none
  pressure_unit : Option String := none
  wind_speed_unit : Option String := none
  precipitation_unit : Option String := none
deriving DecidableEq

/-- The type of a host unit converter `UNIT_CONVERSIONS[...]`: value,
source unit, target unit.  A `none` result models the converter raising
`TypeError` (as `converter(None, ...)` does). -/
def ConvFn : Type := Option ℤ → String → String → Option ℤ

/-- One iteration of the scalar restore loop (weather.py lines
123-142): convert the stored value from the snapshot-recorded unit
(falling back to the native unit) to the native unit; on `TypeError`
the current attribute value `cur` is kept. -/
def restoreScalar (conv : ConvFn) (v : Option ℤ) (storedUnit : Option String)
    (nativeUnit : String) (cur : Option ℤ) : Option ℤ :=
  match conv v (storedUnit.getD nativeUnit) nativeUnit with
  | some r => some r
  | none => cur

/-- One field of the forecast-entry restore loop (weather.py lines
148-169): `f[attribute] = converter(f.get(attribute), getattr(self,
"_<attribute>_unit", native), native)`; on `TypeError` the entry's field
is left as it was. -/
def convEntryField (conv : ConvFn) (v : Option ℤ) (dispUnit : Option String)
    (nativeUnit : String) : Option ℤ :=
  match conv v (dispUnit.getD nativeUnit) nativeUnit with
  | some r => some r
  | none => v

/-- The forecast-entry restore loop applied to one entry, converting
its `temperature`, `pressure`, `wind_speed` and `precipitation` fields,
each from the entity's display-unit attribute (fallback: native unit)
to the native unit. -/
def restoreForecastEntry (conv : ConvFn) (du : DisplayUnits) (f : Forecast) :
    Forecast :=
  let t := convEntryField conv f.temperature du.temperature_unit nativeTemperatureUnit
  let f1 := { f with temperature := t }
  let pr := convEntryField conv f1.pressure du.pressure_unit nativePressureUnit
  let f2 := { f1 with pressure := pr }
  let w := convEntryField conv f2.wind_speed du.wind_speed_unit nativeWindSpeedUnit
  let f3 := { f2 with wind_speed := w }
  let pc := convEntryField conv f3.precipitation du.precipitation_unit nativePrecipitationUnit
  { f3 with precipitation := pc }

/-- Modelled from the spec: the claim's reading of the forecast-entry
reconversion, in which each entry field is converted from the unit
recorded in the restore snapshot (the same `_<field>_unit` state
attribute used for the scalar fields), falling back to the native unit
when none is recorded.  To be compared with `restoreForecastEntry`,
which is what the source does. -/
def restoreForecastEntrySpec (conv : ConvFn) (a : SavedAttrs) (f : Forecast) :
    Forecast :=
  let t := convEntryField conv f.temperature a.temperature_unit nativeTemperatureUnit
  let f1 := { f with temperature := t }
  let pr := convEntryField conv f1.pressure a.pressure_unit nativePressureUnit
  let f2 := { f1 with pressure := pr }
  let w := convEntryField conv f2.wind_speed a.wind_speed_unit nativeWindSpeedUnit
  let f3 := { f2 with wind_speed := w }
  let pc := convEntryField conv f3.precipitation a.precipitation_unit nativePrecipitationUnit
  { f3 with precipitation := pc }

/-- The extra state attributes rebuilt on restore (weather.py lines
171-181): a key is added only when the stored value is not `None`. -/
def restoreExtraAttrs (a : SavedAttrs) : ExtraAttrs :=
  { feels_like := a.feels_like.map some
    wind_gust := a.wind_gust.map some
    yandex_condition := a.yandex_condition.map some
    temp_water := a.temp_water.map some
    forecast_icons := a.forecast_icons.map some }

/-- The refresh decision taken at the end of `async_added_to_hass`:
either an immediate first refresh or a refresh scheduled with an
offset. -/
inductive RefreshAction where
  | firstRefresh
  | scheduled (offset : ℤ)
deriving DecidableEq

/-- `async_added_to_hass` (weather.py lines 105-197).  `prev` is the
result of `async_get_last_state` (`none` when there is no state to
restore), `now` the current time and `updateInterval` the coordinator's
update interval, both in seconds.  Returns the updated entity state and
the refresh action taken. -/
def asyncAddedToHass (conv : ConvFn) (du : DisplayUnits)
    (updateInterval now : ℤ) (prev : Option SavedState) (s : YW) :
    YW × RefreshAction :=
  match prev with
  | none => (s, .firstRefresh)
  | some st =>
    if st.state = STATE_UNAVAILABLE then
      ({ s with attr_available := false }, .firstRefresh)
    else
      let a := st.attributes
      let s1 := { s with attr_available := true,
                         attr_condition := some st.state }
      let t := restoreScalar conv a.temperature a.temperature_unit
        nativeTemperatureUnit s1.attr_native_temperature
      let s2 := { s1 with attr_native_temperature := t }
      let pr := restoreScalar conv a.pressure a.pressure_unit
        nativePressureUnit s2.attr_native_pressure
      let s3 := { s2 with attr_native_pressure := pr }
      let w := restoreScalar conv a.wind_speed a.wind_speed_unit
        nativeWindSpeedUnit s3.attr_native_wind_speed
      let s4 := { s3 with attr_native_wind_speed := w }
      let s5 := { s4 with
        attr_humidity := a.humidity
        attr_wind_bearing := a.wind_bearing
        attr_entity_picture := a.entity_picture }
      let fc := (a.forecast_data.getD []).map (restoreForecastEntry conv du)
      let s6 := { s5 with twice_daily_forecast := .plist fc }
      let s7 := { s6 with attr_extra_state_attributes := restoreExtraAttrs a }
      let since := now - st.last_updated
      let act := if since > updateInterval then RefreshAction.firstRefresh
                 else RefreshAction.scheduled (updateInterval - since)
      (s7, act)

/-- The identity unit converter, used to instantiate witnesses. -/
def convId : ConvFn := fun v _ _ => v

/-- A converter that fails (raises `TypeError`) on every input, used to
instantiate witnesses. -/
def convNone : ConvFn := fun _ _ _ => none

/-- A concrete unit converter that adds 100 whenever source and target
units differ, used to exhibit unit-dependent behaviour. -/
def convShift : ConvFn := fun v u n => if u = n then v else v.map (fun x => x + 100)

/-- C1: with an empty stored forecast list, `__forecast_twice_daily`
inserts the synthesized entry once and returns a list of length 1, not
the minimum of three required by the code's own comment (and by the
claim). -/
theorem c1_single_insert_returns_short_list :
    (forecastTwiceDaily {} { twice_daily_forecast := PyList.plist [] }).map
      (fun p => (p.1.length, p.2.twice_daily_forecast)) =
    .ok (1, PyList.plist
      [synthForecast {} { twice_daily_forecast := PyList.plist [] }]) := rfl

/-- C2 counterexample: `__forecast_twice_daily` raises `AttributeError`
when `_twice_daily_forecast` was never assigned and `TypeError` when it
is `None`, so the claim that it never raises is false. -/
theorem c2_counterexample_raises :
    forecastTwiceDaily {} {} = .error PyErr.attributeError ∧
    forecastTwiceDaily {} { twice_daily_forecast := PyList.pynone } =
      .error PyErr.typeError :=
  ⟨rfl, rfl⟩

/-- C2 (amended): whenever `_twice_daily_forecast` holds an actual list,
`__forecast_twice_daily` does not raise. -/
theorem c2_no_raise_on_list (d : CoordData) (s : YW) (l : List Forecast)
    (h : s.twice_daily_forecast = PyList.plist l) :
    ∃ r s2, forecastTwiceDaily d s = .ok (r, s2) := by
  simp only [forecastTwiceDaily, h]
  by_cases hl : l.length < 3
  · rw [if_pos hl]
    exact ⟨_, _, rfl⟩
  · rw [if_neg hl]
    exact ⟨_, _, rfl⟩

/-- C2 witness: the amended theorem at a concrete entity state. -/
theorem c2_no_raise_on_list_witness :
    ∃ r s2, forecastTwiceDaily {}
      { twice_daily_forecast := PyList.plist [] } = .ok (r, s2) :=
  c2_no_raise_on_list {} { twice_daily_forecast := PyList.plist [] } [] rfl

/-- C8: when the stored list has fewer than 3 entries the call mutates
the stored state, prepending the synthesized entry (the stored length
grows by one); with 3 or more entries the state is returned unchanged. -/
theorem c8_mutates_short_list (d : CoordData) (s : YW) (l : List Forecast)
    (h : s.twice_daily_forecast = PyList.plist l) :
    (l.length < 3 →
      forecastTwiceDaily d s =
        .ok (synthForecast d s :: l,
          { s with twice_daily_forecast :=
              PyList.plist (synthForecast d s :: l) })) ∧
    (3 ≤ l.length → forecastTwiceDaily d s = .ok (l, s)) ∧
    (forecastTwiceDaily d s).map (fun p => p.2.twice_daily_forecast) =
      .ok (PyList.plist (if l.length < 3 then synthForecast d s :: l else l)) := by
  simp only [forecastTwiceDaily, h]
  by_cases hl : l.length < 3
  · simp only [if_pos hl]
    exact ⟨fun _ => trivial, fun h3 => absurd hl (by omega), by rfl⟩
  · simp only [if_neg hl]
    refine ⟨fun hc => absurd hc hl, fun _ => trivial, ?_⟩
    simp only [Except.map, h]

/-- C8 witness: the mutation at a concrete empty stored list. -/
theorem c8_mutates_short_list_witness :
    forecastTwiceDaily {} { twice_daily_forecast := PyList.plist [] } =
      .ok ([synthForecast {} { twice_daily_forecast := PyList.plist [] }],
        { twice_daily_forecast :=
            PyList.plist
              [synthForecast {} { twice_daily_forecast := PyList.plist [] }] }) :=
  (c8_mutates_short_list {} { twice_daily_forecast := PyList.plist [] } []
    rfl).1 (by decide)

/-- C4: `update_condition_and_fire_event` fires the `DOMAIN + "_event"`
event with the device id and the new condition as type exactly when the
new condition differs from the stored one, `hass` is present and the new
condition is in `TRIGGERS`; in every case the stored condition ends up
equal to the new condition. -/
theorem c4_condition_event (triggers : List String) (hp : Bool)
    (deviceId : String) (nc : Option String) (s : YW) :
    (updateConditionAndFireEvent triggers hp deviceId nc s).1.attr_condition
      = nc ∧
    ((updateConditionAndFireEvent triggers hp deviceId nc s).2 =
        [{ event_type := DOMAIN ++ "_event", device_id := deviceId,
           payload_type := nc }] ↔
      nc ≠ s.attr_condition ∧ hp = true ∧ optMem nc triggers = true) ∧
    ((updateConditionAndFireEvent triggers hp deviceId nc s).2 = [] ↔
      ¬(nc ≠ s.attr_condition ∧ hp = true ∧ optMem nc triggers = true)) := by
  unfold updateConditionAndFireEvent
  refine ⟨rfl, ?_, ?_⟩ <;>
    by_cases h1 : nc = s.attr_condition <;> by_cases h2 : hp = true <;>
      by_cases h3 : optMem nc triggers = true <;>
        simp [h1, h2, h3]

/-- The entry that `_handle_coordinator_update` ends up prepending to a
short forecast list, written directly in terms of the coordinator data:
by the time `__forecast_twice_daily` runs, every entity attribute it
reads has just been overwritten from `coordinator.data`. -/
def padEntry (d : CoordData) : Forecast :=
  { datetime := d.weather_time
    wind_bearing := d.wind_bearing
    native_temperature := d.temperature
    temperatrue := d.temperature
    native_templow := d.temperature
    templow := d.temperature
    native_pressure := d.pressure
    native_wind_speed := d.wind_speed
    condition := d.condition }

/-- C5 counterexample: when the coordinator data has no forecast field,
the stored forecast after `_handle_coordinator_update` is not the empty
list the claim prescribes — building the extra state attributes invoked
`__forecast_twice_daily`, which prepended a synthesized entry. -/
theorem c5_counterexample_forecast_mutated :
    ¬ (((handleCoordinatorUpdate [] false "dev" (fun _ _ _ => none)
          { temperature := some 5 } {}).toOption.map
        (fun p => p.1.twice_daily_forecast)) =
      some (PyList.plist
        (({ temperature := some 5 } : CoordData).forecast_data.getD []))) := by
  decide

/-- C5 (amended): after every run of `_handle_coordinator_update` the
scalar attributes mirror the coordinator data exactly and the entity is
available, while the stored forecast equals the data's forecast field
(empty when absent) with one synthesized current-conditions entry
prepended whenever that list has fewer than 3 entries. -/
theorem c5_attributes_mirror_data (triggers : List String) (hp : Bool)
    (deviceId : String)
    (getImage : Option String → Bool → Option String → Option String)
    (d : CoordData) (s : YW) :
    ∃ s2 evs,
      handleCoordinatorUpdate triggers hp deviceId getImage d s =
        .ok (s2, evs) ∧
      s2.attr_available = true ∧
      s2.attr_humidity = d.humidity ∧
      s2.attr_native_pressure = d.pressure ∧
      s2.attr_native_temperature = d.temperature ∧
      s2.attr_native_wind_speed = d.wind_speed ∧
      s2.attr_wind_bearing = d.wind_bearing ∧
      s2.twice_daily_forecast =
        PyList.plist
          (if (d.forecast_data.getD []).length < 3 then
            padEntry d :: d.forecast_data.getD []
          else d.forecast_data.getD []) := by
  simp only [handleCoordinatorUpdate, updateConditionAndFireEvent,
    forecastTwiceDaily]
  by_cases hl : (d.forecast_data.getD []).length < 3
  · simp only [if_pos hl]
    exact ⟨_, _, rfl, rfl, rfl, rfl, rfl, rfl, rfl, rfl⟩
  · simp only [if_neg hl]
    exact ⟨_, _, rfl, rfl, rfl, rfl, rfl, rfl, rfl, rfl⟩

/-- C9: the `temp_water` lookup uses `dict.get`, which is total, so the
`except KeyError` branch cannot run: after every coordinator update the
extra state attributes hold the key `temp_water`, with value `None` when
the coordinator data lacks it. -/
theorem c9_temp_water_always_present (triggers : List String) (hp : Bool)
    (deviceId : String)
    (getImage : Option String → Bool → Option String → Option String)
    (d : CoordData) (s : YW) :
    ∃ s2 evs,
      handleCoordinatorUpdate triggers hp deviceId getImage d s =
        .ok (s2, evs) ∧
      s2.attr_extra_state_attributes.temp_water = some d.temp_water := by
  simp only [handleCoordinatorUpdate, updateConditionAndFireEvent,
    forecastTwiceDaily]
  by_cases hl : (d.forecast_data.getD []).length < 3
  · simp only [if_pos hl]
    exact ⟨_, _, rfl, rfl⟩
  · simp only [if_neg hl]
    exact ⟨_, _, rfl, rfl⟩

/-- A usable previous state with empty attributes, used in witnesses. -/
def stSunny : SavedState :=
  { state := "sunny", attributes := {}, last_updated := 0 }

/-- A previous state whose state value is `STATE_UNAVAILABLE`, used in
witnesses. -/
def stUnavail : SavedState :=
  { state := "unavailable", attributes := {}, last_updated := 0 }

/-- A stored forecast entry with a temperature, used in the display-unit
counterexample. -/
def f0 : Forecast := { temperature := some 10 }

/-- Display units in which the entity's temperature attribute differs
from the native unit. -/
def du0 : DisplayUnits := { temperature_unit := some "°F" }

/-- Snapshot attributes that record no units and carry one forecast
entry. -/
def a0 : SavedAttrs := { forecast_data := some [f0] }

/-- A usable previous state carrying `a0`. -/
def stCloudy : SavedState :=
  { state := "cloudy", attributes := a0, last_updated := 0 }

/-- C3: with a usable previous state, the elapsed time since the last
update is compared against the update interval: strictly greater means
an immediate first refresh, otherwise a refresh is scheduled with offset
`update_interval - elapsed`; the two outcomes are exclusive. -/
theorem c3_refresh_decision (conv : ConvFn) (du : DisplayUnits)
    (ui now : ℤ) (st : SavedState) (s : YW)
    (h : st.state ≠ STATE_UNAVAILABLE) :
    (now - st.last_updated > ui →
      (asyncAddedToHass conv du ui now (some st) s).2 =
        RefreshAction.firstRefresh) ∧
    (now - st.last_updated ≤ ui →
      (asyncAddedToHass conv du ui now (some st) s).2 =
        RefreshAction.scheduled (ui - (now - st.last_updated))) ∧
    RefreshAction.firstRefresh ≠
      RefreshAction.scheduled (ui - (now - st.last_updated)) := by
  simp only [asyncAddedToHass, if_neg h]
  refine ⟨fun hgt => ?_, fun hle => ?_, fun hc => RefreshAction.noConfusion hc⟩
  · simp only [if_pos hgt]
  · simp only [if_neg (not_lt.mpr hle)]

/-- C3 witness: a concrete restore 3 seconds after the last update with
a 10-second interval schedules a refresh 7 seconds out. -/
theorem c3_refresh_decision_witness :
    (asyncAddedToHass convId {} 10 3 (some stSunny) {}).2 =
      RefreshAction.scheduled (10 - (3 - stSunny.last_updated)) :=
  (c3_refresh_decision convId {} 10 3 stSunny {} (by decide)).2.1 (by decide)

/-- C7: with no previous state the entity just requests a first refresh
and restores nothing; with an unavailable previous state it is marked
unavailable and a first refresh is requested, with no attributes
restored; only a usable state marks the entity available (and restores
its condition). -/
theorem c7_no_state_and_unavailable (conv : ConvFn) (du : DisplayUnits)
    (ui now : ℤ) (s : YW) (st : SavedState) :
    asyncAddedToHass conv du ui now none s = (s, RefreshAction.firstRefresh) ∧
    (st.state = STATE_UNAVAILABLE →
      asyncAddedToHass conv du ui now (some st) s =
        ({ s with attr_available := false }, RefreshAction.firstRefresh)) ∧
    (st.state ≠ STATE_UNAVAILABLE →
      (asyncAddedToHass conv du ui now (some st) s).1.attr_available = true ∧
      (asyncAddedToHass conv du ui now (some st) s).1.attr_condition =
        some st.state) := by
  refine ⟨rfl, fun hu => ?_, fun hn => ?_⟩
  · simp only [asyncAddedToHass, if_pos hu]
  · simp only [asyncAddedToHass, if_neg hn]
    refine ⟨?_, ?_⟩ <;> trivial

/-- C7 witness: restoring from a concrete unavailable state only clears
availability and requests a first refresh. -/
theorem c7_no_state_and_unavailable_witness :
    asyncAddedToHass convId {} 10 3 (some stUnavail) {} =
      ({ ({} : YW) with attr_available := false },
        RefreshAction.firstRefresh) :=
  (c7_no_state_and_unavailable convId {} 10 3 {} stUnavail).2.1 rfl

/-- C6 counterexample: with a snapshot recording no units (so the
claim's fallback prescribes the native unit, an identity conversion) but
an entity display-unit attribute different from the native unit, the
restored forecast differs from the claim's prescription: the code
converts each entry from the entity's display unit. -/
theorem c6_counterexample_entry_unit :
    (asyncAddedToHass convShift du0 10 3
        (some stCloudy) {}).1.twice_daily_forecast ≠
      PyList.plist ((stCloudy.attributes.forecast_data.getD []).map
        (restoreForecastEntrySpec convShift stCloudy.attributes)) := by
  decide

/-- C6 (amended): on restore of a usable state each scalar native
attribute is the stored value converted from the snapshot-recorded unit
(fallback: native) to the native unit, while every restored forecast
entry is converted (temperature, pressure, wind speed and precipitation)
from the entity's display-unit attribute (fallback: native) to the
native unit. -/
theorem c6_restore_reconversion (conv : ConvFn) (du : DisplayUnits)
    (ui now : ℤ) (st : SavedState) (s : YW)
    (h : st.state ≠ STATE_UNAVAILABLE) :
    (asyncAddedToHass conv du ui now (some st) s).1.attr_native_temperature =
      restoreScalar conv st.attributes.temperature
        st.attributes.temperature_unit nativeTemperatureUnit
        s.attr_native_temperature ∧
    (asyncAddedToHass conv du ui now (some st) s).1.attr_native_pressure =
      restoreScalar conv st.attributes.pressure
        st.attributes.pressure_unit nativePressureUnit
        s.attr_native_pressure ∧
    (asyncAddedToHass conv du ui now (some st) s).1.attr_native_wind_speed =
      restoreScalar conv st.attributes.wind_speed
        st.attributes.wind_speed_unit nativeWindSpeedUnit
        s.attr_native_wind_speed ∧
    (asyncAddedToHass conv du ui now (some st) s).1.twice_daily_forecast =
      PyList.plist ((st.attributes.forecast_data.getD []).map
        (restoreForecastEntry conv du)) := by
  simp only [asyncAddedToHass, if_neg h]
  refine ⟨?_, ?_, ?_, ?_⟩ <;> trivial

/-- C6 witness: the amended reconversion at a concrete snapshot. -/
theorem c6_restore_reconversion_witness :
    (asyncAddedToHass convId {} 10 3
        (some stCloudy) {}).1.attr_native_temperature =
      restoreScalar convId stCloudy.attributes.temperature
        stCloudy.attributes.temperature_unit nativeTemperatureUnit none ∧
    (asyncAddedToHass convId {} 10 3
        (some stCloudy) {}).1.attr_native_pressure =
      restoreScalar convId stCloudy.attributes.pressure
        stCloudy.attributes.pressure_unit nativePressureUnit none ∧
    (asyncAddedToHass convId {} 10 3
        (some stCloudy) {}).1.attr_native_wind_speed =
      restoreScalar convId stCloudy.attributes.wind_speed
        stCloudy.attributes.wind_speed_unit nativeWindSpeedUnit none ∧
    (asyncAddedToHass convId {} 10 3
        (some stCloudy) {}).1.twice_daily_forecast =
      PyList.plist ((stCloudy.attributes.forecast_data.getD []).map
        (restoreForecastEntry convId {})) :=
  c6_restore_reconversion convId {} 10 3 stCloudy {} (by decide)

/-- C10: if the converter raises `TypeError` on the stored temperature,
the exception is swallowed: the native temperature is left unchanged
while the other fields are still restored and the entity is marked
available; the restore itself never fails. -/
theorem c10_typeerror_swallowed (conv : ConvFn) (du : DisplayUnits)
    (ui now : ℤ) (st : SavedState) (s : YW)
    (h : st.state ≠ STATE_UNAVAILABLE)
    (hT : conv st.attributes.temperature
        (st.attributes.temperature_unit.getD nativeTemperatureUnit)
        nativeTemperatureUnit = none) :
    (asyncAddedToHass conv du ui now (some st) s).1.attr_native_temperature =
      s.attr_native_temperature ∧
    (asyncAddedToHass conv du ui now (some st) s).1.attr_native_pressure =
      restoreScalar conv st.attributes.pressure
        st.attributes.pressure_unit nativePressureUnit
        s.attr_native_pressure ∧
    (asyncAddedToHass conv du ui now (some st) s).1.attr_native_wind_speed =
      restoreScalar conv st.attributes.wind_speed
        st.attributes.wind_speed_unit nativeWindSpeedUnit
        s.attr_native_wind_speed ∧
    (asyncAddedToHass conv du ui now (some st) s).1.attr_humidity =
      st.attributes.humidity ∧
    (asyncAddedToHass conv du ui now (some st) s).1.attr_wind_bearing =
      st.attributes.wind_bearing ∧
    (asyncAddedToHass conv du ui now (some st) s).1.attr_available = true := by
  simp only [asyncAddedToHass, if_neg h]
  refine ⟨?_, ?_, ?_, ?_, ?_, ?_⟩
  · simp only [restoreScalar, hT]
  all_goals trivial

/-- C10 witness: a converter that always raises leaves the native
temperature untouched at a concrete restore. -/
theorem c10_typeerror_swallowed_witness :
    (asyncAddedToHass convNone {} 10 3
        (some stSunny) {}).1.attr_native_temperature = none ∧
    (asyncAddedToHass convNone {} 10 3
        (some stSunny) {}).1.attr_native_pressure =
      restoreScalar convNone stSunny.attributes.pressure
        stSunny.attributes.pressure_unit nativePressureUnit none ∧
    (asyncAddedToHass convNone {} 10 3
        (some stSunny) {}).1.attr_native_wind_speed =
      restoreScalar convNone stSunny.attributes.wind_speed
        stSunny.attributes.wind_speed_unit nativeWindSpeedUnit none ∧
    (asyncAddedToHass convNone {} 10 3
        (some stSunny) {}).1.attr_humidity = stSunny.attributes.humidity ∧
    (asyncAddedToHass convNone {} 10 3
        (some stSunny) {}).1.attr_wind_bearing =
      stSunny.attributes.wind_bearing ∧
    (asyncAddedToHass convNone {} 10 3
        (some stSunny) {}).1.attr_available = true :=
  c10_typeerror_swallowed convNone {} 10 3 stSunny {} (by decide) rfl

end YandexWeather
